import Mathlib

/-!
Shallow embedding of the `better-next-api` pipeline builder
(`src/api-builder.ts`, `src/api-error.ts`).

JavaScript runtime values are modelled by the inductive `Val` (with an
explicit `undef` constructor for `undefined`); a thrown JavaScript value is
modelled by `Thrown`, recording whether it is an `instanceof ApiError`
(`apiError`), whether it carries a string `digest` property (`digest`), and a
`tag` distinguishing otherwise-equal unclassified errors.  Asynchronous code
is sequential in the source (every awaited step completes before the next
starts), so promises are elided and fallible steps return `Except`.
-/

namespace BetterNextApi

/-- A JSON-like JavaScript runtime value.  `undef` is JavaScript `undefined`;
objects are ordered field lists as in the JS object model. -/
inductive Val where
  | undef
  | null
  | bool (b : Bool)
  | num (n : Int)
  | str (s : String)
  | arr (elems : List Val)
  | obj (fields : List (String × Val))

/-- The field list of a JavaScript object (ordered, keys unique by
construction through `objSet`). -/
abbrev Fields := List (String × Val)

/-- JavaScript property assignment `o[k] = v`: replaces the value in place if
the key exists (keeping its position), appends otherwise. -/
def objSet (o : Fields) (k : String) (v : Val) : Fields :=
  if o.any (fun kv => kv.1 = k) then
    o.map (fun kv => if kv.1 = k then (k, v) else kv)
  else o ++ [(k, v)]

/-- JavaScript object spread of `a` then `b`: starts from an empty object and
assigns every entry of `a`, then every entry of `b`; later keys override
earlier ones on collision. -/
def spread (a b : Fields) : Fields :=
  (a ++ b).foldl (fun acc kv => objSet acc kv.1 kv.2) []

/-- `Object.fromEntries(req.nextUrl.searchParams.entries())`: builds an object
from key/value string pairs, later duplicate keys winning. -/
def fromEntries (l : List (String × String)) : Fields :=
  l.foldl (fun acc kv => objSet acc kv.1 (Val.str kv.2)) []

/-- JavaScript `String.prototype.startsWith`. -/
def strStartsWith (s p : String) : Bool :=
  s.data.take p.data.length == p.data

/-- An opaque Zod validation issue record (`z.ZodIssue`), passed through
unchanged to responses. -/
structure ZodIssue where
  path : List String
  message : String
deriving DecidableEq

/-- The constructor argument of `ApiError` (`ApiErrorProps` in
`api-error.ts`): `code` and `type` are optional with defaults. -/
structure ApiErrorProps where
  code : Option Nat
  type : Option String
  message : String
  issues : Option (List ZodIssue)
deriving DecidableEq

/-- The `ApiError` value after construction (`api-error.ts`): code defaults
to 500, type to "INTERNAL_SERVER_ERROR". -/
structure ApiError where
  code : Nat
  type : String
  message : String
  issues : Option (List ZodIssue)
deriving DecidableEq

/-- The `ApiError` constructor: applies the defaults of `api-error.ts`
(`props.code ?? 500`, `props.type ?? "INTERNAL_SERVER_ERROR"`). -/
def ApiError.make (props : ApiErrorProps) : ApiError :=
  { code := props.code.getD 500
    type := props.type.getD "INTERNAL_SERVER_ERROR"
    message := props.message
    issues := props.issues }

/-- A thrown JavaScript value.  `apiError` is `some e` exactly when the value
is an `instanceof ApiError`; `digest` is `some d` exactly when the value is an
object with a string `digest` property `d`; `tag` distinguishes
otherwise-identical thrown values (identity). -/
structure Thrown where
  apiError : Option ApiError
  digest : Option String
  tag : Nat
deriving DecidableEq

/-- A freshly constructed and thrown `ApiError` (no `digest` property). -/
def Thrown.ofApiError (e : ApiError) : Thrown :=
  { apiError := some e, digest := none, tag := 0 }

/-- `isNextJsInternalError` from `api-builder.ts`: true iff the value is an
object with a string `digest` property starting with "NEXT_". -/
def isNextJsInternalError (error : Thrown) : Bool :=
  match error.digest with
  | none => false
  | some digest => strStartsWith digest "NEXT_"

/-- A Zod schema at the validator-adapter boundary: `safeParseAsync` either
succeeds with the validated/coerced data or reports a list of issues. -/
structure Schema where
  safeParse : Val → Except (List ZodIssue) Val

/-- The raw request as seen by the compiled entry point: resolved route
params, query-string entries, and the outcome of `req.json()` (`Except.error`
models the parse throwing). -/
structure Req where
  params : Val
  searchParams : List (String × String)
  jsonBody : Except Unit Val

/-- The `HandlerInput` object passed to middleware and handlers. -/
structure HandlerInput where
  context : Val
  query : Val
  body : Val
  ctx : Fields
  req : Req

/-- A framework response: `NextResponse.json(body, status)`. -/
structure Response where
  status : Nat
  body : Val

/-- The resolved result of a handler: either an already-built `NextResponse` or a
plain value to be JSON-encoded. -/
inductive HandlerResult where
  | response (res : Response)
  | value (v : Val)

/-- A middleware step: receives the handler input, returns a context-fragment
object or throws. -/
abbrev Middleware := HandlerInput → Except Thrown Fields

/-- A terminal handler: receives the handler input, returns a result or
throws. -/
abbrev Handler := HandlerInput → Except Thrown HandlerResult

/-- The `.failed()` hook: side-effecting, may itself throw. -/
abbrev FailureHandler := Req → Thrown → Except Thrown Unit

/-- An HTTP method of the terminal operations of the builder. -/
inductive Method where
  | GET
  | POST
  | PUT
  | PATCH
  | DELETE
deriving DecidableEq

/-- `["POST", "PUT", "PATCH"].includes(method)`. -/
def Method.hasBody : Method → Bool
  | .POST => true
  | .PUT => true
  | .PATCH => true
  | _ => false

/-- The builder configuration (`ApiBuilder` class fields). -/
structure ApiBuilder where
  contextSchema : Option Schema
  querySchema : Option Schema
  bodySchema : Option Schema
  middlewares : List Middleware
  failureHandler : Option FailureHandler

/-- `createApiHandler()`: the empty initial builder. -/
def createApiHandler : ApiBuilder :=
  { contextSchema := none
    querySchema := none
    bodySchema := none
    middlewares := []
    failureHandler := none }

/-- `.context(schema)`: a copy of the builder with only `contextSchema` replaced. -/
def ApiBuilder.context (b : ApiBuilder) (schema : Schema) : ApiBuilder :=
  { b with contextSchema := some schema }

/-- `.query(schema)`: a copy of the builder with only `querySchema` replaced. -/
def ApiBuilder.query (b : ApiBuilder) (schema : Schema) : ApiBuilder :=
  { b with querySchema := some schema }

/-- `.body(schema)`: a copy of the builder with only `bodySchema` replaced. -/
def ApiBuilder.body (b : ApiBuilder) (schema : Schema) : ApiBuilder :=
  { b with bodySchema := some schema }

/-- `.use(middleware)`: appends to the middleware list. -/
def ApiBuilder.use (b : ApiBuilder) (middleware : Middleware) : ApiBuilder :=
  { b with middlewares := b.middlewares ++ [middleware] }

/-- `.failed(handler)`: replaces the failure hook. -/
def ApiBuilder.failed (b : ApiBuilder) (handler : FailureHandler) : ApiBuilder :=
  { b with failureHandler := some handler }

/-- The private `validate` helper: with no schema, returns
`data === undefined ? undefined : data` (the raw data); with a schema, runs
`safeParseAsync` and throws a 400 `VALIDATION_ERROR` `ApiError` carrying the
reported issues on failure. -/
def validate (schema : Option Schema) (data : Val) : Except Thrown Val :=
  match schema with
  | none => Except.ok (match data with | Val.undef => Val.undef | d => d)
  | some s =>
    match s.safeParse data with
    | Except.ok d => Except.ok d
    | Except.error issues =>
        Except.error (Thrown.ofApiError (ApiError.make
          { code := some 400
            type := some "VALIDATION_ERROR"
            message := "Invalid input."
            issues := some issues }))

/-- The `ApiError` thrown when the body try/catch fires with a configured body
schema. -/
def invalidBodyError : ApiError :=
  ApiError.make
    { code := some 400
      type := some "INVALID_BODY"
      message := "Invalid JSON body provided."
      issues := none }

/-- The inner try block of the body step:
`const json = await req.json(); validatedBody = await this.validate(...)`.
A `req.json()` failure throws the JSON `SyntaxError` (an unclassified thrown
value); note the catch below also receives any `ApiError` thrown by
`validate`. -/
def bodyParseAndValidate (bodySchema : Option Schema) (req : Req) : Except Thrown Val :=
  match req.jsonBody with
  | Except.error _ => Except.error { apiError := none, digest := none, tag := 0 }
  | Except.ok json => validate bodySchema json

/-- The whole body step of `createRouteHandler`: run only for POST/PUT/PATCH;
any error of the inner try (parse failure or body-schema rejection) is caught,
and rethrown as 400 `INVALID_BODY` iff a body schema is configured, otherwise
swallowed leaving `validatedBody` undefined. -/
def validateBodyStep (bodySchema : Option Schema) (method : Method) (req : Req) :
    Except Thrown Val :=
  if method.hasBody then
    match bodyParseAndValidate bodySchema req with
    | Except.ok v => Except.ok v
    | Except.error _ =>
        if bodySchema.isSome then Except.error (Thrown.ofApiError invalidBodyError)
        else Except.ok Val.undef
  else Except.ok Val.undef

/-- The middleware loop: for each middleware in order, invoke it with the
input base plus the context accumulated so far, then spread its returned
object on top of the accumulator; a thrown error propagates immediately. -/
def runMiddlewares (mk : Fields → HandlerInput) :
    List Middleware → Fields → Except Thrown Fields
  | [], acc => Except.ok acc
  | m :: rest, acc =>
    match m (mk acc) with
    | Except.error e => Except.error e
    | Except.ok newCtx => runMiddlewares mk rest (spread acc newCtx)

/-- The try block of the compiled entry point: validation, middleware chain,
handler, success encoding (201 for POST plain values, 200 otherwise;
`NextResponse` results pass through). -/
def tryBlock (b : ApiBuilder) (method : Method) (handler : Handler) (req : Req) :
    Except Thrown Response :=
  match validate b.contextSchema req.params with
  | Except.error e => Except.error e
  | Except.ok validatedContext =>
    match validate b.querySchema (Val.obj (fromEntries req.searchParams)) with
    | Except.error e => Except.error e
    | Except.ok validatedQuery =>
      match validateBodyStep b.bodySchema method req with
      | Except.error e => Except.error e
      | Except.ok validatedBody =>
        match runMiddlewares
            (fun c => ⟨validatedContext, validatedQuery, validatedBody, c, req⟩)
            b.middlewares [] with
        | Except.error e => Except.error e
        | Except.ok cumulativeCtx =>
          match handler ⟨validatedContext, validatedQuery, validatedBody, cumulativeCtx, req⟩ with
          | Except.error e => Except.error e
          | Except.ok (HandlerResult.response res) => Except.ok res
          | Except.ok (HandlerResult.value v) =>
              Except.ok ⟨if method = Method.POST then 201 else 200, v⟩

/-- The generic 500 fallback response body. -/
def generic500 : Response :=
  ⟨500, Val.obj [("message", Val.str "An internal server error occurred."),
                 ("type", Val.str "INTERNAL_SERVER_ERROR")]⟩

/-- `issues` as serialized in an error response (`undefined` when absent). -/
def issuesToVal : Option (List ZodIssue) → Val
  | none => Val.undef
  | some l => Val.arr (l.map (fun i =>
      Val.obj [("path", Val.arr (i.path.map Val.str)), ("message", Val.str i.message)]))

/-- The response built from a caught `ApiError`:
`(message, type, issues)` at the own code of the error. -/
def apiErrorResponse (e : ApiError) : Response :=
  ⟨e.code, Val.obj [("message", Val.str e.message), ("type", Val.str e.type),
                    ("issues", issuesToVal e.issues)]⟩

/-- The observable outcome of one invocation of the compiled entry point:
`result` is the returned response, or `Except.error` for a re-thrown value;
`hookCalls` records each error passed to the failure hook; `hookErrors`
records each error the hook itself threw (caught and only logged). -/
structure RunOutcome where
  result : Except Thrown Response
  hookCalls : List Thrown
  hookErrors : List Thrown

/-- `createRouteHandler`: the compiled per-request entry point.  Runs the try
block; on a caught error, re-throws Next.js internal errors, maps `ApiError`s
to their own response, and otherwise best-effort invokes the failure hook
(swallowing its errors) before returning the generic 500. -/
def createRouteHandler (b : ApiBuilder) (method : Method) (handler : Handler)
    (req : Req) : RunOutcome :=
  match tryBlock b method handler req with
  | Except.ok res => ⟨Except.ok res, [], []⟩
  | Except.error error =>
    if isNextJsInternalError error then
      ⟨Except.error error, [], []⟩
    else
      match error.apiError with
      | some e => ⟨Except.ok (apiErrorResponse e), [], []⟩
      | none =>
        match b.failureHandler with
        | some hook =>
          match hook req error with
          | Except.ok _ => ⟨Except.ok generic500, [error], []⟩
          | Except.error loggingError => ⟨Except.ok generic500, [error], [loggingError]⟩
        | none => ⟨Except.ok generic500, [], []⟩

/-- `.get(handler)`. -/
def ApiBuilder.get (b : ApiBuilder) (handler : Handler) : Req → RunOutcome :=
  createRouteHandler b Method.GET handler

/-- `.post(handler)`. -/
def ApiBuilder.post (b : ApiBuilder) (handler : Handler) : Req → RunOutcome :=
  createRouteHandler b Method.POST handler

/-- `.put(handler)`. -/
def ApiBuilder.put (b : ApiBuilder) (handler : Handler) : Req → RunOutcome :=
  createRouteHandler b Method.PUT handler

/-- `.patch(handler)`. -/
def ApiBuilder.patch (b : ApiBuilder) (handler : Handler) : Req → RunOutcome :=
  createRouteHandler b Method.PATCH handler

/-- `.delete(handler)`. -/
def ApiBuilder.delete (b : ApiBuilder) (handler : Handler) : Req → RunOutcome :=
  createRouteHandler b Method.DELETE handler

/-! ## Concrete fixtures and helper lemmas -/

/-- A schema accepting every input unchanged. -/
def acceptAll : Schema := ⟨fun v => Except.ok v⟩

/-- A schema rejecting every input with the given issues. -/
def rejectWith (issues : List ZodIssue) : Schema := ⟨fun _ => Except.error issues⟩

/-- A sample validation issue. -/
def sampleIssue : ZodIssue := ⟨["x"], "Expected string"⟩

/-- A sample request: empty route params, one query entry, and a JSON body
that parses to an object. -/
def reqSample : Req := ⟨Val.obj [], [("a", "1")], Except.ok (Val.obj [("x", Val.str "1")])⟩

/-- A sample request whose body fails to parse. -/
def reqBadBody : Req := ⟨Val.obj [], [], Except.error ()⟩

/-- A middleware that succeeds, computing its returned object from the
accumulated context. -/
def ctxProbe (f : Fields → Fields) : Middleware := fun inp => Except.ok (f inp.ctx)

/-- The specified cumulative-context semantics: starting from `acc`, each step
observes the context accumulated so far and its output is spread on top of
the accumulator, later keys winning. -/
def chainSpec : List (Fields → Fields) → Fields → Fields
  | [], acc => acc
  | f :: fs, acc => chainSpec fs (spread acc (f acc))

/-- A handler that throws the given value. -/
def throwingHandler (t : Thrown) : Handler := fun _ => Except.error t

/-- A handler returning the given plain value. -/
def constHandler (v : Val) : Handler := fun _ => Except.ok (HandlerResult.value v)

/-- A sample 403 `ApiError`. -/
def sampleApiError : ApiError := ApiError.make ⟨some 403, some "FORBIDDEN", "denied", none⟩

/-- A sample unclassified thrown value (not an `ApiError`, no digest). -/
def sampleUnclassified : Thrown := ⟨none, none, 3⟩

/-- A failure hook that succeeds. -/
def okHook : FailureHandler := fun _ _ => Except.ok ()

/-- A failure hook that itself throws the given value. -/
def throwingHook (t : Thrown) : FailureHandler := fun _ _ => Except.error t

/-- A sample Next.js control-flow signal (digest "NEXT_REDIRECT"). -/
def nextRedirect : Thrown := ⟨none, some "NEXT_REDIRECT", 5⟩

/-- With no schema configured, `validate` returns the raw data unchanged
(the source conditional `data === undefined ? undefined : data` is the
identity). -/
theorem validate_none (data : Val) : validate none data = Except.ok data := by
  cases data <;> rfl

/-- The middleware loop on succeeding probes computes exactly the specified
left-to-right spread, each step observing the accumulator so far. -/
theorem runMiddlewares_probes (mk : Fields → HandlerInput)
    (hmk : ∀ c, (mk c).ctx = c) (fs : List (Fields → Fields)) (acc : Fields) :
    runMiddlewares mk (fs.map ctxProbe) acc = Except.ok (chainSpec fs acc) := by
  induction fs generalizing acc with
  | nil => rfl
  | cons f fs ih => simp [runMiddlewares, ctxProbe, hmk, chainSpec, ih]

/-- `runMiddlewares_probes`, specialized to the input constructor used by
`tryBlock`. -/
theorem runMiddlewares_probes_mk (vc vq vb : Val) (req : Req)
    (fs : List (Fields → Fields)) (acc : Fields) :
    runMiddlewares (fun c => ⟨vc, vq, vb, c, req⟩) (fs.map ctxProbe) acc
      = Except.ok (chainSpec fs acc) :=
  runMiddlewares_probes _ (fun _ => rfl) fs acc

/-- A throwing middleware step stops the loop at once: the error propagates
whatever the remaining steps are. -/
theorem runMiddlewares_throwAt (mk : Fields → HandlerInput)
    (fs : List (Fields → Fields)) (e : Thrown) (rest : List Middleware) (acc : Fields) :
    runMiddlewares mk (fs.map ctxProbe ++ (fun _ => Except.error e) :: rest) acc
      = Except.error e := by
  induction fs generalizing acc with
  | nil => rfl
  | cons f fs ih => simp [runMiddlewares, ctxProbe, ih]

/-! ## Claim theorems -/

/-- C1: evaluation of the code at the failing input.  For a POST whose payload
parses but whose configured body schema rejects it, the pipeline responds 400
INVALID_BODY with message "Invalid JSON body provided." and no issues — not
the VALIDATION_ERROR response carrying the reported issues that the claim
demands.  The inner try/catch of the body step catches the VALIDATION_ERROR
thrown by `validate` and rethrows it as INVALID_BODY. -/
theorem c1_body_schema_rejection_masked_as_invalid_body :
    (createRouteHandler (ApiBuilder.body createApiHandler (rejectWith [sampleIssue]))
        Method.POST (constHandler Val.null) reqSample)
      = ⟨Except.ok ⟨400, Val.obj [("message", Val.str "Invalid JSON body provided."),
            ("type", Val.str "INVALID_BODY"), ("issues", Val.undef)]⟩, [], []⟩
    ∧ (createRouteHandler (ApiBuilder.body createApiHandler (rejectWith [sampleIssue]))
        Method.POST (constHandler Val.null) reqSample).result
      ≠ Except.ok (apiErrorResponse (ApiError.make
          { code := some 400, type := some "VALIDATION_ERROR",
            message := "Invalid input.", issues := some [sampleIssue] })) := by
  refine ⟨rfl, fun h => ?_⟩
  simp [createRouteHandler, tryBlock, validate, validateBodyStep, bodyParseAndValidate,
    apiErrorResponse, ApiError.make, issuesToVal, ApiBuilder.body, createApiHandler,
    rejectWith, reqSample, constHandler, Method.hasBody, runMiddlewares,
    isNextJsInternalError, Thrown.ofApiError, invalidBodyError] at h

/-- C2: evaluation of the code at the failing input.  With no schemas
configured, the handler-input fields carry the raw request data (the raw
route-params object, the raw query object, and for POST the raw parsed JSON
body), not `undefined` as the claim states. -/
theorem c2_unconfigured_schemas_pass_raw_values :
    (createRouteHandler createApiHandler Method.GET
        (fun inp => Except.ok (HandlerResult.value (Val.arr [inp.context, inp.query, inp.body])))
        reqSample).result
      = Except.ok ⟨200, Val.arr [Val.obj [], Val.obj [("a", Val.str "1")], Val.undef]⟩
    ∧ Val.obj [("a", Val.str "1")] ≠ Val.undef
    ∧ (createRouteHandler createApiHandler Method.POST
        (fun inp => Except.ok (HandlerResult.value inp.body)) reqSample).result
      = Except.ok ⟨201, Val.obj [("x", Val.str "1")]⟩
    ∧ Val.obj [("x", Val.str "1")] ≠ Val.undef := by
  exact ⟨rfl, fun h => Val.noConfusion h, rfl, fun h => Val.noConfusion h⟩

/-- C3: for every middleware sequence and every request on which validation
succeeds, the steps run in insertion order from an empty cumulative context,
each step observing the left-to-right spread of the outputs of the earlier
steps (later keys winning); the handler receives the spread of all outputs;
and a thrown error propagates immediately — the outcome does not depend on
the remaining steps or on the handler. -/
theorem c3_middleware_order_merge_shortcircuit
    (cs qs : Option Schema) (req : Req) (vc vq : Val)
    (hc : validate cs req.params = Except.ok vc)
    (hq : validate qs (Val.obj (fromEntries req.searchParams)) = Except.ok vq)
    (fh : Option FailureHandler)
    (fs : List (Fields → Fields)) (e : Thrown) (rest : List Middleware)
    (h1 h2 : Handler) :
    (createRouteHandler ⟨cs, qs, none, fs.map ctxProbe, fh⟩ Method.GET
        (fun inp => Except.ok (HandlerResult.value (Val.obj inp.ctx))) req).result
      = Except.ok ⟨200, Val.obj (chainSpec fs [])⟩
    ∧ createRouteHandler
        ⟨cs, qs, none, fs.map ctxProbe ++ (fun _ => Except.error e) :: rest, fh⟩
        Method.GET h1 req
      = createRouteHandler ⟨cs, qs, none, fs.map ctxProbe ++ [fun _ => Except.error e], fh⟩
        Method.GET h2 req := by
  constructor
  · simp [createRouteHandler, tryBlock, hc, hq, validateBodyStep, Method.hasBody,
      runMiddlewares_probes_mk]
  · simp [createRouteHandler, tryBlock, hc, hq, validateBodyStep, Method.hasBody,
      runMiddlewares_throwAt]

/-- C3 witness: the hypotheses hold at a concrete configuration (no schemas,
one probe middleware) and the conclusion evaluates there. -/
theorem c3_witness :
    validate none reqSample.params = Except.ok (Val.obj [])
    ∧ validate none (Val.obj (fromEntries reqSample.searchParams))
        = Except.ok (Val.obj [("a", Val.str "1")])
    ∧ ((createRouteHandler
          ⟨none, none, none, [fun _ => [("k", Val.num 1)]].map ctxProbe, none⟩ Method.GET
          (fun inp => Except.ok (HandlerResult.value (Val.obj inp.ctx))) reqSample).result
        = Except.ok ⟨200, Val.obj (chainSpec [fun _ => [("k", Val.num 1)]] [])⟩
      ∧ createRouteHandler
          ⟨none, none, none,
            [fun _ => [("k", Val.num 1)]].map ctxProbe
              ++ (fun _ => Except.error ⟨none, none, 7⟩) :: [fun _ => Except.ok []], none⟩
          Method.GET (constHandler Val.null) reqSample
        = createRouteHandler
            ⟨none, none, none,
              [fun _ => [("k", Val.num 1)]].map ctxProbe
                ++ [fun _ => Except.error ⟨none, none, 7⟩], none⟩
            Method.GET (throwingHandler ⟨none, none, 9⟩) reqSample) :=
  ⟨rfl, rfl,
    c3_middleware_order_merge_shortcircuit none none reqSample (Val.obj [])
      (Val.obj [("a", Val.str "1")]) rfl rfl none
      [fun _ => [("k", Val.num 1)]] ⟨none, none, 7⟩ [fun _ => Except.ok []]
      (constHandler Val.null) (throwingHandler ⟨none, none, 9⟩)⟩

/-- C4: every configuration operation returns a brand-new builder value with
exactly one field changed (the original is untouched — the embedding of the
source, which constructs a new object from a spread of `this` and never
assigns to `this`); re-configuring replaces rather than accumulates; and the
entry point compiled from a branch depends only on the base fields and the
branch argument, so sibling branches cannot affect each other. -/
theorem c4_builder_operations_functional_update (b : ApiBuilder) (s1 s2 : Schema)
    (m : Middleware) (fh : FailureHandler) (method : Method) (h : Handler) (req : Req) :
    ApiBuilder.context b s1
      = ⟨some s1, b.querySchema, b.bodySchema, b.middlewares, b.failureHandler⟩
    ∧ ApiBuilder.query b s1
      = ⟨b.contextSchema, some s1, b.bodySchema, b.middlewares, b.failureHandler⟩
    ∧ ApiBuilder.body b s1
      = ⟨b.contextSchema, b.querySchema, some s1, b.middlewares, b.failureHandler⟩
    ∧ ApiBuilder.use b m
      = ⟨b.contextSchema, b.querySchema, b.bodySchema, b.middlewares ++ [m], b.failureHandler⟩
    ∧ ApiBuilder.failed b fh
      = ⟨b.contextSchema, b.querySchema, b.bodySchema, b.middlewares, some fh⟩
    ∧ ApiBuilder.context (ApiBuilder.context b s2) s1 = ApiBuilder.context b s1
    ∧ createRouteHandler (ApiBuilder.context b s1) method h req
      = createRouteHandler
          ⟨some s1, b.querySchema, b.bodySchema, b.middlewares, b.failureHandler⟩
          method h req :=
  ⟨rfl, rfl, rfl, rfl, rfl, rfl, rfl⟩

/-- C5: for POST/PUT/PATCH with an unparsable payload — with a body schema
configured the pipeline responds 400 INVALID_BODY and neither middleware nor
handler is invoked (the outcome does not depend on them); without a body
schema the parse failure is silently ignored, `body` stays undefined, and the
pipeline proceeds through middleware to the handler. -/
theorem c5_unparsable_payload
    (method : Method) (hm : method.hasBody = true)
    (req : Req) (hreq : req.jsonBody = Except.error ())
    (bs : Schema) (mws : List Middleware) (fh : Option FailureHandler)
    (handler : Handler) (f : Fields → Fields) :
    createRouteHandler ⟨none, none, some bs, mws, fh⟩ method handler req
      = ⟨Except.ok (apiErrorResponse invalidBodyError), [], []⟩
    ∧ invalidBodyError.code = 400
    ∧ invalidBodyError.type = "INVALID_BODY"
    ∧ (createRouteHandler ⟨none, none, none, [ctxProbe f], fh⟩ method
        (fun inp => Except.ok (HandlerResult.value (Val.arr [inp.body, Val.obj inp.ctx])))
        req).result
      = Except.ok ⟨if method = Method.POST then 201 else 200,
          Val.arr [Val.undef, Val.obj (spread [] (f []))]⟩ := by
  refine ⟨?_, rfl, rfl, ?_⟩
  · simp [createRouteHandler, tryBlock, validate, validateBodyStep, bodyParseAndValidate,
      hm, hreq, isNextJsInternalError, Thrown.ofApiError]
  · simp [createRouteHandler, tryBlock, validate, validateBodyStep, bodyParseAndValidate,
      hm, hreq, runMiddlewares, ctxProbe]

/-- C5 witness: the hypotheses hold for POST on a request whose body fails to
parse. -/
theorem c5_witness :
    Method.hasBody Method.POST = true
    ∧ reqBadBody.jsonBody = Except.error ()
    ∧ (createRouteHandler ⟨none, none, some acceptAll, [], none⟩ Method.POST
          (constHandler Val.null) reqBadBody
        = ⟨Except.ok (apiErrorResponse invalidBodyError), [], []⟩
      ∧ invalidBodyError.code = 400
      ∧ invalidBodyError.type = "INVALID_BODY"
      ∧ (createRouteHandler ⟨none, none, none, [ctxProbe (fun _ => [("m", Val.bool true)])],
            none⟩ Method.POST
          (fun inp => Except.ok (HandlerResult.value (Val.arr [inp.body, Val.obj inp.ctx])))
          reqBadBody).result
        = Except.ok ⟨if Method.POST = Method.POST then 201 else 200,
            Val.arr [Val.undef, Val.obj (spread [] [("m", Val.bool true)])]⟩) :=
  ⟨rfl, rfl,
    c5_unparsable_payload Method.POST rfl reqBadBody rfl acceptAll [] none
      (constHandler Val.null) (fun _ => [("m", Val.bool true)])⟩

/-- C6 counterexample: an `ApiError` that also carries a `digest` starting
with "NEXT_" is a Typed Error Value, yet the pipeline re-raises it instead of
mapping it to its own-status response, so the claim as stated is false. -/
theorem c6_counterexample :
    (Thrown.mk (some (ApiError.make ⟨some 403, some "FORBIDDEN", "denied", none⟩))
        (some "NEXT_REDIRECT") 0).apiError
      = some (ApiError.make ⟨some 403, some "FORBIDDEN", "denied", none⟩)
    ∧ (createRouteHandler createApiHandler Method.GET
        (throwingHandler ⟨some (ApiError.make ⟨some 403, some "FORBIDDEN", "denied", none⟩),
          some "NEXT_REDIRECT", 0⟩) reqSample).result
      = Except.error ⟨some (ApiError.make ⟨some 403, some "FORBIDDEN", "denied", none⟩),
          some "NEXT_REDIRECT", 0⟩
    ∧ (createRouteHandler createApiHandler Method.GET
        (throwingHandler ⟨some (ApiError.make ⟨some 403, some "FORBIDDEN", "denied", none⟩),
          some "NEXT_REDIRECT", 0⟩) reqSample).result
      ≠ Except.ok (apiErrorResponse (ApiError.make ⟨some 403, some "FORBIDDEN", "denied", none⟩)) :=
  ⟨rfl, rfl, fun h => Except.noConfusion h⟩

/-- C6 (amended): a Typed Error Value raised at any stage that does not carry
a platform control-flow marker is mapped to its (message, type, issues)
response at its own code without invoking the failure hook; the hook is
invoked, at most once, only for an unclassified non-signal error reaching the
top level, and then the response is the constant generic 500 body, exposing
nothing of the original error. -/
theorem c6_typed_errors_bypass_hook
    (e : ApiError) (t : Thrown) (he : t.apiError = some e)
    (hd : isNextJsInternalError t = false)
    (u : Thrown) (hu : u.apiError = none) (hud : isNextJsInternalError u = false)
    (fh : Option FailureHandler) (req : Req) (rest mws : List Middleware)
    (handler : Handler) (issues : List ZodIssue) :
    createRouteHandler ⟨none, none, none, [], fh⟩ Method.GET (throwingHandler t) req
      = ⟨Except.ok (apiErrorResponse e), [], []⟩
    ∧ createRouteHandler ⟨none, none, none, (fun _ => Except.error t) :: rest, fh⟩
        Method.GET handler req
      = ⟨Except.ok (apiErrorResponse e), [], []⟩
    ∧ createRouteHandler ⟨some (rejectWith issues), none, none, mws, fh⟩
        Method.GET handler req
      = ⟨Except.ok (apiErrorResponse (ApiError.make
          { code := some 400, type := some "VALIDATION_ERROR",
            message := "Invalid input.", issues := some issues })), [], []⟩
    ∧ (createRouteHandler ⟨none, none, none, [], fh⟩ Method.GET (throwingHandler u) req).result
      = Except.ok generic500
    ∧ (createRouteHandler ⟨none, none, none, [], fh⟩ Method.GET
        (throwingHandler u) req).hookCalls
      = (if fh.isSome then [u] else [])
    ∧ (createRouteHandler ⟨none, none, none, [], fh⟩ Method.GET
        (throwingHandler u) req).hookCalls.length ≤ 1 := by
  refine ⟨?_, ?_, ?_, ?_, ?_, ?_⟩
  · simp [createRouteHandler, tryBlock, validate, validateBodyStep, Method.hasBody,
      runMiddlewares, throwingHandler, hd, he]
  · simp [createRouteHandler, tryBlock, validate, validateBodyStep, Method.hasBody,
      runMiddlewares, hd, he]
  · simp [createRouteHandler, tryBlock, validate, rejectWith, validateBodyStep,
      Method.hasBody, isNextJsInternalError, Thrown.ofApiError]
  · cases fh with
    | none =>
        simp [createRouteHandler, tryBlock, validate, validateBodyStep, Method.hasBody,
          runMiddlewares, throwingHandler, hud, hu]
    | some hook =>
        cases hh : hook req u <;>
          simp [createRouteHandler, tryBlock, validate, validateBodyStep, Method.hasBody,
            runMiddlewares, throwingHandler, hud, hu, hh]
  · cases fh with
    | none =>
        simp [createRouteHandler, tryBlock, validate, validateBodyStep, Method.hasBody,
          runMiddlewares, throwingHandler, hud, hu]
    | some hook =>
        cases hh : hook req u <;>
          simp [createRouteHandler, tryBlock, validate, validateBodyStep, Method.hasBody,
            runMiddlewares, throwingHandler, hud, hu, hh]
  · cases fh with
    | none =>
        simp [createRouteHandler, tryBlock, validate, validateBodyStep, Method.hasBody,
          runMiddlewares, throwingHandler, hud, hu]
    | some hook =>
        cases hh : hook req u <;>
          simp [createRouteHandler, tryBlock, validate, validateBodyStep, Method.hasBody,
            runMiddlewares, throwingHandler, hud, hu, hh]

/-- C6 witness: the hypotheses hold for a thrown `ApiError` without digest and
a digest-free unclassified value, with a succeeding hook installed. -/
theorem c6_witness :
    (Thrown.ofApiError sampleApiError).apiError = some sampleApiError
    ∧ isNextJsInternalError (Thrown.ofApiError sampleApiError) = false
    ∧ sampleUnclassified.apiError = none
    ∧ isNextJsInternalError sampleUnclassified = false
    ∧ (createRouteHandler ⟨none, none, none, [], some okHook⟩ Method.GET
          (throwingHandler (Thrown.ofApiError sampleApiError)) reqSample
        = ⟨Except.ok (apiErrorResponse sampleApiError), [], []⟩
      ∧ createRouteHandler
          ⟨none, none, none,
            (fun _ => Except.error (Thrown.ofApiError sampleApiError)) :: [], some okHook⟩
          Method.GET (constHandler Val.null) reqSample
        = ⟨Except.ok (apiErrorResponse sampleApiError), [], []⟩
      ∧ createRouteHandler ⟨some (rejectWith [sampleIssue]), none, none, [], some okHook⟩
          Method.GET (constHandler Val.null) reqSample
        = ⟨Except.ok (apiErrorResponse (ApiError.make
            { code := some 400, type := some "VALIDATION_ERROR",
              message := "Invalid input.", issues := some [sampleIssue] })), [], []⟩
      ∧ (createRouteHandler ⟨none, none, none, [], some okHook⟩ Method.GET
            (throwingHandler sampleUnclassified) reqSample).result
        = Except.ok generic500
      ∧ (createRouteHandler ⟨none, none, none, [], some okHook⟩ Method.GET
            (throwingHandler sampleUnclassified) reqSample).hookCalls
        = (if (some okHook).isSome then [sampleUnclassified] else [])
      ∧ (createRouteHandler ⟨none, none, none, [], some okHook⟩ Method.GET
            (throwingHandler sampleUnclassified) reqSample).hookCalls.length ≤ 1) :=
  ⟨rfl, rfl, rfl, rfl,
    c6_typed_errors_bypass_hook sampleApiError (Thrown.ofApiError sampleApiError) rfl rfl
      sampleUnclassified rfl rfl (some okHook) reqSample [] [] (constHandler Val.null)
      [sampleIssue]⟩

/-- C7: a thrown value carrying a digest starting with "NEXT_" is re-raised
as the exact same value (identical `Thrown`, tag included), never converted
to a 500 or any other response, and the failure hook is never invoked for it
— whether it is raised by the handler or by a middleware step. -/
theorem c7_platform_signal_rethrown_unchanged
    (t : Thrown) (hn : isNextJsInternalError t = true)
    (fh : Option FailureHandler) (req : Req) (rest : List Middleware) (handler : Handler) :
    createRouteHandler ⟨none, none, none, [], fh⟩ Method.GET (throwingHandler t) req
      = ⟨Except.error t, [], []⟩
    ∧ createRouteHandler ⟨none, none, none, (fun _ => Except.error t) :: rest, fh⟩
        Method.GET handler req
      = ⟨Except.error t, [], []⟩ := by
  constructor <;>
    simp [createRouteHandler, tryBlock, validate, validateBodyStep, Method.hasBody,
      runMiddlewares, throwingHandler, hn]

/-- C7 witness: the hypothesis holds for the "NEXT_REDIRECT" signal. -/
theorem c7_witness :
    isNextJsInternalError nextRedirect = true
    ∧ (createRouteHandler ⟨none, none, none, [], none⟩ Method.GET
          (throwingHandler nextRedirect) reqSample
        = ⟨Except.error nextRedirect, [], []⟩
      ∧ createRouteHandler ⟨none, none, none, (fun _ => Except.error nextRedirect) :: [], none⟩
          Method.GET (constHandler Val.null) reqSample
        = ⟨Except.error nextRedirect, [], []⟩) :=
  ⟨rfl, c7_platform_signal_rethrown_unchanged nextRedirect rfl none reqSample []
      (constHandler Val.null)⟩

/-- C8: when an unclassified error reaches the top level and the installed
failure hook itself throws, the thrown hook error is caught — recorded only
in the log, never propagated — and the final response is the same generic
500 as when the hook succeeds. -/
theorem c8_hook_error_swallowed
    (u : Thrown) (hu : u.apiError = none) (hud : isNextJsInternalError u = false)
    (hookErr : Thrown) (req : Req) :
    createRouteHandler ⟨none, none, none, [], some (throwingHook hookErr)⟩ Method.GET
        (throwingHandler u) req
      = ⟨Except.ok generic500, [u], [hookErr]⟩
    ∧ (createRouteHandler ⟨none, none, none, [], some (throwingHook hookErr)⟩ Method.GET
        (throwingHandler u) req).result
      = (createRouteHandler ⟨none, none, none, [], some okHook⟩ Method.GET
          (throwingHandler u) req).result := by
  constructor <;>
    simp [createRouteHandler, tryBlock, validate, validateBodyStep, Method.hasBody,
      runMiddlewares, throwingHandler, throwingHook, okHook, hud, hu]

/-- C8 witness: the hypotheses hold for a digest-free unclassified error and
a hook throwing a concrete value. -/
theorem c8_witness :
    sampleUnclassified.apiError = none
    ∧ isNextJsInternalError sampleUnclassified = false
    ∧ (createRouteHandler ⟨none, none, none, [], some (throwingHook ⟨none, none, 11⟩)⟩
          Method.GET (throwingHandler sampleUnclassified) reqSample
        = ⟨Except.ok generic500, [sampleUnclassified], [⟨none, none, 11⟩]⟩
      ∧ (createRouteHandler ⟨none, none, none, [], some (throwingHook ⟨none, none, 11⟩)⟩
            Method.GET (throwingHandler sampleUnclassified) reqSample).result
        = (createRouteHandler ⟨none, none, none, [], some okHook⟩ Method.GET
            (throwingHandler sampleUnclassified) reqSample).result) :=
  ⟨rfl, rfl,
    c8_hook_error_swallowed sampleUnclassified rfl rfl ⟨none, none, 11⟩ reqSample⟩

/-- C9: a successful handler returning an already-built response object has
it passed through unmodified with its own status; a plain value is encoded
with status 201 when the method is POST and status 200 for every other
method. -/
theorem c9_success_encoding (method : Method) (req : Req) (r : Response) (v : Val) :
    (createRouteHandler createApiHandler method
        (fun _ => Except.ok (HandlerResult.response r)) req).result
      = Except.ok r
    ∧ (createRouteHandler createApiHandler method (constHandler v) req).result
      = Except.ok ⟨if method = Method.POST then 201 else 200, v⟩ := by
  cases method <;> cases hj : req.jsonBody <;>
    simp [createRouteHandler, tryBlock, validate_none, validateBodyStep,
      bodyParseAndValidate, Method.hasBody, runMiddlewares, constHandler,
      createApiHandler, hj]

/-- C10: the platform-signal test runs before Typed Error classification: a
thrown value whose digest starts with "NEXT_" is re-thrown unchanged even
when it is also an `ApiError` instance, and such an `ApiError` is never
mapped to its (message, type, issues) response. -/
theorem c10_digest_check_precedes_apierror_mapping
    (e : ApiError) (d : String) (hd : strStartsWith d "NEXT_" = true)
    (tag : Nat) (fh : Option FailureHandler) (req : Req) :
    createRouteHandler ⟨none, none, none, [], fh⟩ Method.GET
        (throwingHandler ⟨some e, some d, tag⟩) req
      = ⟨Except.error ⟨some e, some d, tag⟩, [], []⟩
    ∧ (createRouteHandler ⟨none, none, none, [], fh⟩ Method.GET
        (throwingHandler ⟨some e, some d, tag⟩) req).result
      ≠ Except.ok (apiErrorResponse e) := by
  have h1 : createRouteHandler ⟨none, none, none, [], fh⟩ Method.GET
      (throwingHandler ⟨some e, some d, tag⟩) req
      = ⟨Except.error ⟨some e, some d, tag⟩, [], []⟩ := by
    simp [createRouteHandler, tryBlock, validate, validateBodyStep, Method.hasBody,
      runMiddlewares, throwingHandler, isNextJsInternalError, hd]
  refine ⟨h1, ?_⟩
  rw [h1]
  exact fun hcontra => Except.noConfusion hcontra

/-- C10 witness: the hypothesis holds for an `ApiError` carrying the digest
"NEXT_NOT_FOUND". -/
theorem c10_witness :
    strStartsWith "NEXT_NOT_FOUND" "NEXT_" = true
    ∧ (createRouteHandler ⟨none, none, none, [], none⟩ Method.GET
          (throwingHandler ⟨some sampleApiError, some "NEXT_NOT_FOUND", 2⟩) reqSample
        = ⟨Except.error ⟨some sampleApiError, some "NEXT_NOT_FOUND", 2⟩, [], []⟩
      ∧ (createRouteHandler ⟨none, none, none, [], none⟩ Method.GET
            (throwingHandler ⟨some sampleApiError, some "NEXT_NOT_FOUND", 2⟩) reqSample).result
        ≠ Except.ok (apiErrorResponse sampleApiError)) :=
  ⟨rfl, c10_digest_check_precedes_apierror_mapping sampleApiError "NEXT_NOT_FOUND" rfl 2
      none reqSample⟩

end BetterNextApi
